import Mathlib

/-!
A shallow embedding, in Lean 4, of three resource adapters of the
terraform-provider-opentelekomcloud repository:

* `resource_opentelekomcloud_networking_router_v2.go` (package vpc),
* `resource_opentelekomcloud_sfs_file_system_v2.go` (package sfs),
* `resource_opentelekomcloud_waf_preciseprotection_rule_v1.go` (package waf).

Each Go CRUD function is translated into a pure Lean function.  The parts of
the world the Go code merely consumes — the vendor SDK calls (`routers.Get`,
`shares.Create`, ...), the outcome of the Terraform plugin SDK wait loop
(`StateChangeConf.WaitForStateContext` / `WaitForState`), and client
construction — enter the Lean functions as explicit parameters describing the
result the environment returned; the control flow the resource file itself
performs on those results is translated line by line.  Terraform state effects
(`d.SetId`, `d.Set`) become fields of explicit outcome structures, and the Go
SDK's `(pointer, error)` pairs become `Option`/`Except` values, with a nil
pointer represented by `none`.
-/

/-- An error returned by a vendor SDK call.  `golangsdk.ErrDefault404` — the
error type the resource files test for with a type assertion — is the
distinguished constructor `default404`; every other error is `other` with its
message. -/
inductive ApiError where
  | default404
  | other (msg : String)
deriving DecidableEq, Repr

/-- The text produced when the Go code formats the error with `%s`. -/
def ApiError.message : ApiError → String
  | .default404 => "Resource not found"
  | .other m => m

/-- `true` on `Except.ok`, `false` on `Except.error`: whether the wrapped
operation (an SDK call or a `StateChangeConf` wait) succeeded. -/
def exceptOk {ε α : Type} : Except ε α → Bool
  | .ok _ => true
  | .error _ => false

/-- The `Pending`/`Target` status lists of a `resource.StateChangeConf`
value as configured by a resource file (Refresh, Timeout, Delay and
MinTimeout are environment concerns and are not part of the embedding). -/
structure StateChangeConf where
  pending : List String
  target : List String
deriving DecidableEq, Repr

/-! ## WAF precise protection rule (resource_opentelekomcloud_waf_preciseprotection_rule_v1.go) -/

/-- `preciseprotection_rules.Condition` of the vendor SDK. -/
structure Condition where
  Category : String
  Index : String
  Logic : Int
  Contents : List String
deriving DecidableEq, Repr

/-- `preciseprotection_rules.Action` of the vendor SDK. -/
structure PreciseAction where
  Category : String
deriving DecidableEq, Repr

/-- One block of the `conditions` list attribute of the rule resource, with
the keys `category`, `index`, `logic`, `contents` of its schema. -/
structure ConditionConfig where
  category : String
  index : String
  logic : Int
  contents : List String
deriving DecidableEq, Repr

/-- The configuration (`d.Get` view) of a
`opentelekomcloud_waf_preciseprotection_rule_v1` resource, one field per
attribute declared in the schema.  Unset string attributes read as `""`,
the unset bool as `false`, the unset int as `0`, matching `d.Get`. -/
structure WafRuleConfig where
  region : String
  policyId : String
  name : String
  time : Bool
  start : String
  endStr : String
  conditions : List ConditionConfig
  actionCategory : String
  priority : Int
deriving DecidableEq, Repr

/-- `d.GetOk(key)` on the rule resource for string-typed keys: it reports a
key as set when the schema declares the key and its configured value is not
the zero value `""`.  The schema of this resource declares `policy_id`,
`name`, `start`, `end`, `action_category` (string keys); `GetOk` on any key
the schema does not declare — notably `"cache_control"`, which appears in
the Create function — finds no value and reports `false`. -/
def wafGetOkString (c : WafRuleConfig) : String → Bool
  | "policy_id" => c.policyId != ""
  | "name" => c.name != ""
  | "start" => c.start != ""
  | "end" => c.endStr != ""
  | "action_category" => c.actionCategory != ""
  | _ => false

/-- `strconv.ParseInt(s, 10, 64)`: an optional sign followed by at least one
decimal digit, rejected with `invalid syntax` otherwise, and rejected with
`value out of range` outside `[-2^63, 2^63 - 1]`.  The message is the text
`err` contributes when formatted with `%s`. -/
def parseInt64 (s : String) : Except String Int :=
  let cs := s.toList
  let signDigits : Bool × List Char :=
    match cs with
    | '-' :: rest => (true, rest)
    | '+' :: rest => (false, rest)
    | _ => (false, cs)
  let neg := signDigits.1
  let ds := signDigits.2
  if ds.isEmpty || !ds.all Char.isDigit then
    .error ("strconv.ParseInt: parsing \"" ++ s ++ "\": invalid syntax")
  else
    let n : Nat := ds.foldl (fun acc c => acc * 10 + (c.toNat - 48)) 0
    let v : Int := if neg then -(n : Int) else (n : Int)
    if v < -(2 ^ 63) || v > 2 ^ 63 - 1 then
      .error ("strconv.ParseInt: parsing \"" ++ s ++ "\": value out of range")
    else
      .ok v

/-- `strconv.FormatInt(i, 10)`: the base-10 decimal rendering of `i`. -/
def formatInt10 (i : Int) : String := toString i

/-- `getConditions`: builds the SDK `Condition` list from the `conditions`
blocks of the configuration, copying `category`, `index`, `logic` and the
`contents` strings of each block in order. -/
def getConditions (conditions : List ConditionConfig) : List Condition :=
  conditions.map fun cond =>
    { Category := cond.category
      Index := cond.index
      Logic := cond.logic
      Contents := cond.contents }

/-- `getPreciseAction`: the `Action` of the create payload. -/
def getPreciseAction (c : WafRuleConfig) : PreciseAction :=
  { Category := c.actionCategory }

/-- `preciseprotection_rules.CreateOpts` of the vendor SDK (Priority is a
pointer in Go, always set by Create from the config, so it is plain here;
Start and End default to the zero value 0 when not assigned). -/
structure PreciseCreateOpts where
  Name : String
  Time : Bool
  Conditions : List Condition
  Action : PreciseAction
  Priority : Int
  Start : Int
  End : Int
deriving DecidableEq, Repr

/-- The payload construction of `resourceWafPreciseProtectionRuleV1Create`
(lines 149–171): build `createOpts` from the config, then
`if _, ok := d.GetOk("start"); ok` parse `d.Get("start")` into `Start`
(returning `error converting start: ...` on failure), then
`if _, ok := d.GetOk("cache_control"); ok` parse `d.Get("end")` into `End`
(returning `error converting end: ...` on failure). -/
def buildPreciseCreateOpts (c : WafRuleConfig) : Except String PreciseCreateOpts :=
  let base : PreciseCreateOpts :=
    { Name := c.name
      Time := c.time
      Conditions := getConditions c.conditions
      Action := getPreciseAction c
      Priority := c.priority
      Start := 0
      End := 0 }
  let afterStart : Except String PreciseCreateOpts :=
    if wafGetOkString c "start" then
      match parseInt64 c.start with
      | .error e => .error ("error converting start: " ++ e)
      | .ok v => .ok { base with Start := v }
    else
      .ok base
  match afterStart with
  | .error e => .error e
  | .ok opts =>
    if wafGetOkString c "cache_control" then
      match parseInt64 c.endStr with
      | .error e => .error ("error converting end: " ++ e)
      | .ok v => .ok { opts with End := v }
    else
      .ok opts

/-- `preciseprotection_rules.Rule` of the vendor SDK, as returned by
`Create` and `Get`. -/
structure PreciseRule where
  Id : String
  PolicyID : String
  Name : String
  Time : Bool
  Start : Int
  End : Int
  Conditions : List Condition
  Action : PreciseAction
  Priority : Int
deriving DecidableEq, Repr

/-- The Terraform state attributes written by the rule Read function
(`start` and `end` are schema strings). -/
structure WafRuleState where
  policyId : String
  name : String
  time : Bool
  start : String
  endStr : String
  conditions : List Condition
  actionCategory : String
  priority : Int
deriving DecidableEq, Repr

/-- The observable effect of a rule Read: the resource ID after the call
(`""` when `d.SetId("")` removed the resource), the diagnostics error, and
the attributes written with `d.Set` (none when Read returned before the
`d.Set` block). -/
structure WafReadOutcome where
  id : String
  error : Option String
  state : Option WafRuleState
deriving DecidableEq, Repr

/-- `resourceWafPreciseProtectionRuleV1Read`: on a client error report it;
on `ErrDefault404` from `Get` clear the ID and succeed; on any other `Get`
error report it with the ID unchanged; otherwise `SetId(n.Id)` and write
every attribute from the response, `start`/`end` through
`strconv.FormatInt(_, 10)` and `conditions` copied element by element. -/
def resourceWafPreciseProtectionRuleV1Read (id : String) (clientErr : Option String)
    (getResult : Except ApiError PreciseRule) : WafReadOutcome :=
  match clientErr with
  | some e => ⟨id, some ("error creating OpenTelekomCloud WAF client: " ++ e), none⟩
  | none =>
    match getResult with
    | .error .default404 => ⟨"", none, none⟩
    | .error e =>
      ⟨id, some ("error retrieving OpenTelekomCloud Waf Precise Protection Rule: " ++ e.message),
        none⟩
    | .ok n =>
      ⟨n.Id, none, some
        { policyId := n.PolicyID
          name := n.Name
          time := n.Time
          start := formatInt10 n.Start
          endStr := formatInt10 n.End
          conditions := n.Conditions.map fun cond =>
            { Category := cond.Category
              Index := cond.Index
              Logic := cond.Logic
              Contents := cond.Contents }
          actionCategory := n.Action.Category
          priority := n.Priority }⟩

/-- The environment a rule Create runs against: the WAF client construction,
the result of `preciseprotection_rules.Create(...).Extract()`, and the result
of the `Get` issued by the trailing Read. -/
structure WafCreateEnv where
  clientErr : Option String
  createResult : Except ApiError PreciseRule
  readGetResult : Except ApiError PreciseRule
deriving Repr

/-- The observable effect of a rule Create: whether the create API call was
issued, the payload sent (none when Create failed before the call), the ID
passed to `d.SetId` (none when never called), and the diagnostics error. -/
structure WafCreateOutcome where
  createCalled : Bool
  payload : Option PreciseCreateOpts
  setIdCalledWith : Option String
  error : Option String
deriving Repr

/-- `resourceWafPreciseProtectionRuleV1Create`: build the payload (possibly
failing on `start`/`end` conversion), call `Create`, `SetId(rule.Id)` on
success, then run Read. -/
def resourceWafPreciseProtectionRuleV1Create (c : WafRuleConfig) (env : WafCreateEnv) :
    WafCreateOutcome :=
  match env.clientErr with
  | some e => ⟨false, none, none, some ("error creating OpenTelekomcomCloud WAF Client: " ++ e)⟩
  | none =>
    match buildPreciseCreateOpts c with
    | .error e => ⟨false, none, none, some e⟩
    | .ok opts =>
      match env.createResult with
      | .error e =>
        ⟨true, some opts, none,
          some ("error creating OpenTelekomcomCloud WAF Precise Protection Rule: " ++ e.message)⟩
      | .ok rule =>
        let rd := resourceWafPreciseProtectionRuleV1Read rule.Id none env.readGetResult
        ⟨true, some opts, some rule.Id, rd.error⟩

/-! ## Networking router v2 (resource_opentelekomcloud_networking_router_v2.go) -/

/-- `routers.GatewayInfo` of the vendor SDK (`EnableSNAT` is a `*bool`). -/
structure GatewayInfo where
  NetworkID : String
  EnableSNAT : Option Bool
deriving DecidableEq, Repr

/-- `routers.Router` of the vendor SDK, as returned by `Get`. -/
structure Router where
  ID : String
  Name : String
  AdminStateUp : Bool
  Distributed : Bool
  TenantID : String
  GatewayInfo : GatewayInfo
  Status : String
deriving DecidableEq, Repr

/-- The configuration (`d.Get`/`d.GetOk` view) of a
`opentelekomcloud_networking_router_v2` resource.  The `Option Bool` fields
record the outcome of `d.GetOk` on the bool attributes (`none` when `GetOk`
reported the attribute as unset). -/
structure RouterConfig where
  region : String
  name : String
  adminStateUp : Option Bool
  distributed : Option Bool
  externalGateway : String
  enableSnat : Option Bool
  tenantID : String
  valueSpecs : List (String × String)
deriving DecidableEq, Repr

/-- `RouterCreateOpts` (the provider's wrapper of `routers.CreateOpts` plus
`ValueSpecs`). -/
structure RouterCreateOpts where
  Name : String
  TenantID : String
  AdminStateUp : Option Bool
  Distributed : Option Bool
  GatewayInfo : Option GatewayInfo
  ValueSpecs : List (String × String)
deriving DecidableEq, Repr

/-- The payload construction of `resourceNetworkingRouterV2Create`
(lines 90–122): name and tenant_id from the config, admin_state_up and
distributed when `GetOk` reports them set, a `GatewayInfo` with the
network ID when `external_gateway` is nonempty, and — when `GetOk` reports
`enable_snat` set — either the error
`setting enable_snat requires external_gateway to be set` (empty gateway) or
`EnableSNAT` assigned into the gateway info. -/
def buildRouterCreateOpts (c : RouterConfig) : Except String RouterCreateOpts :=
  let base : RouterCreateOpts :=
    { Name := c.name
      TenantID := c.tenantID
      AdminStateUp := c.adminStateUp
      Distributed := c.distributed
      GatewayInfo :=
        if c.externalGateway != "" then some ⟨c.externalGateway, none⟩ else none
      ValueSpecs := c.valueSpecs }
  match c.enableSnat with
  | none => .ok base
  | some es =>
    if c.externalGateway = "" then
      .error "setting enable_snat requires external_gateway to be set"
    else
      .ok { base with GatewayInfo := some ⟨c.externalGateway, some es⟩ }

/-- The attributes written by the router Read function. -/
structure RouterReadState where
  name : String
  adminStateUp : Bool
  distributed : Bool
  tenantID : String
  externalGateway : String
  enableSnat : Option Bool
  region : String
deriving DecidableEq, Repr

/-- The observable effect of a router Read. -/
structure RouterReadOutcome where
  id : String
  error : Option String
  state : Option RouterReadState
deriving DecidableEq, Repr

/-- `resourceNetworkingRouterV2Read`: on a client error report it; on
`ErrDefault404` from `routers.Get` clear the ID and succeed; on any other
`Get` error report it with the ID unchanged; otherwise write every
attribute from the response. -/
def resourceNetworkingRouterV2Read (region id : String) (clientErr : Option String)
    (getResult : Except ApiError Router) : RouterReadOutcome :=
  match clientErr with
  | some e => ⟨id, some ("error creating OpenTelekomCloud networking client: " ++ e), none⟩
  | none =>
    match getResult with
    | .error .default404 => ⟨"", none, none⟩
    | .error e =>
      ⟨id, some ("error retrieving OpenTelekomCloud Neutron Router: " ++ e.message), none⟩
    | .ok n =>
      ⟨id, none, some
        { name := n.Name
          adminStateUp := n.AdminStateUp
          distributed := n.Distributed
          tenantID := n.TenantID
          externalGateway := n.GatewayInfo.NetworkID
          enableSnat := n.GatewayInfo.EnableSNAT
          region := region }⟩

/-- The `(router pointer, error)` pair produced by
`routers.Get(networkingClient, routerId).Extract()`: on error the pointer
is nil (`none`). -/
structure RouterGetResult where
  router : Option Router
  err : Option ApiError
deriving DecidableEq, Repr

/-- What one invocation of a `resource.StateRefreshFunc` over routers does:
either it returns the `(result, status, err)` triple, or it crashes with a
nil-pointer dereference. -/
inductive RouterRefresh where
  | crash
  | triple (result : Option Router) (status : String) (err : Option ApiError)
deriving DecidableEq, Repr

/-- `waitForRouterActive`: run `routers.Get(...).Extract()`; on error
`return nil, r.Status, err` — which reads `r.Status` from the router
pointer `r`, nil in exactly that case — and on success
`return r, r.Status, nil`. -/
def waitForRouterActive (g : RouterGetResult) : RouterRefresh :=
  match g.err with
  | some e =>
    match g.router with
    | none => .crash
    | some r => .triple none r.Status (some e)
  | none =>
    match g.router with
    | none => .crash
    | some r => .triple (some r) r.Status none

/-- `waitForRouterDelete`: `Get` error 404 means DELETED; another `Get`
error is reported with status ACTIVE; on `Get` success issue `Delete`,
whose 404 again means DELETED, whose other error is reported with status
ACTIVE, and whose success leaves the router ACTIVE.  The router pointer is
returned, never dereferenced. -/
def waitForRouterDelete (g : RouterGetResult) (deleteErr : Option ApiError) : RouterRefresh :=
  match g.err with
  | some .default404 => .triple g.router "DELETED" none
  | some e => .triple g.router "ACTIVE" (some e)
  | none =>
    match deleteErr with
    | some .default404 => .triple g.router "DELETED" none
    | some e => .triple g.router "ACTIVE" (some e)
    | none => .triple g.router "ACTIVE" none

/-- The `StateChangeConf` of the router Create wait (lines 132–139), whose
`Refresh` is `waitForRouterActive`. -/
def routerActiveStateConf : StateChangeConf :=
  { pending := ["BUILD", "PENDING_CREATE", "PENDING_UPDATE"]
    target := ["ACTIVE"] }

/-- The `StateChangeConf` of the router Delete wait (lines 245–252), whose
`Refresh` is `waitForRouterDelete`. -/
def routerDeleteStateConf : StateChangeConf :=
  { pending := ["ACTIVE"], target := ["DELETED"] }

/-- The environment a router Create runs against: the client construction,
the result of `routers.Create(...).Extract()`, the result of
`stateConf.WaitForStateContext(ctx)` for `routerActiveStateConf`, and the
result of the `Get` issued by the trailing Read. -/
structure RouterCreateEnv where
  clientErr : Option String
  createResult : Except ApiError Router
  waitOutcome : Except String (Option Router)
  readGetResult : Except ApiError Router
deriving Repr

/-- The observable effect of a router Create. -/
structure RouterCreateOutcome where
  createCalled : Bool
  setIdCalledWith : Option String
  finalId : Option String
  error : Option String
deriving Repr

/-- `resourceNetworkingRouterV2Create`: build the payload (possibly failing
on the enable_snat check), call `Create`, then run the ACTIVE wait — whose
result is assigned with `_, err = stateConf.WaitForStateContext(ctx)` and
never inspected — then `d.SetId(n.ID)` and the trailing Read,
unconditionally. -/
def resourceNetworkingRouterV2Create (c : RouterConfig) (env : RouterCreateEnv) :
    RouterCreateOutcome :=
  match env.clientErr with
  | some e => ⟨false, none, none, some ("error creating OpenTelekomCloud networking client: " ++ e)⟩
  | none =>
    match buildRouterCreateOpts c with
    | .error e => ⟨false, none, none, some e⟩
    | .ok _opts =>
      match env.createResult with
      | .error e =>
        ⟨true, none, none, some ("error creating OpenTelekomCloud Neutron router: " ++ e.message)⟩
      | .ok n =>
        let _discardedWaitErr := env.waitOutcome
        let rd := resourceNetworkingRouterV2Read c.region n.ID none env.readGetResult
        ⟨true, some n.ID, some rd.id, rd.error⟩

/-- The `d.HasChange`/`d.Get` view of a router Update. -/
structure RouterUpdateInput where
  hasChangeName : Bool
  name : String
  hasChangeAdminStateUp : Bool
  adminStateUp : Bool
  externalGateway : String
  hasChangeExternalGateway : Bool
  hasChangeEnableSnat : Bool
  enableSnat : Bool
deriving DecidableEq, Repr

/-- `routers.UpdateOpts` of the vendor SDK (Name's zero value is `""`). -/
structure RouterUpdateOpts where
  Name : String
  AdminStateUp : Option Bool
  GatewayInfo : Option GatewayInfo
deriving DecidableEq, Repr

/-- The payload construction of `resourceNetworkingRouterV2Update`
(lines 189–226): name and admin_state_up when changed; gateway settings
updated when external_gateway changed or enable_snat changed, the latter
failing with `setting enable_snat requires external_gateway to be set`
when the configured gateway is empty. -/
def buildRouterUpdateOpts (u : RouterUpdateInput) : Except String RouterUpdateOpts :=
  let name := if u.hasChangeName then u.name else ""
  let asu : Option Bool := if u.hasChangeAdminStateUp then some u.adminStateUp else none
  let externalGateway := u.externalGateway
  let gatewayInfo : GatewayInfo := ⟨externalGateway, none⟩
  if u.hasChangeEnableSnat then
    if externalGateway = "" then
      .error "setting enable_snat requires external_gateway to be set"
    else
      .ok ⟨name, asu, some { gatewayInfo with EnableSNAT := some u.enableSnat }⟩
  else if u.hasChangeExternalGateway then
    .ok ⟨name, asu, some gatewayInfo⟩
  else
    .ok ⟨name, asu, none⟩

/-- The observable effect of a router Update. -/
structure RouterUpdateOutcome where
  updateCalled : Bool
  payload : Option RouterUpdateOpts
  error : Option String
deriving Repr

/-- `resourceNetworkingRouterV2Update`: build the update payload (possibly
failing on the enable_snat check before `routers.Update` is called), call
`Update`, then run the trailing Read. -/
def resourceNetworkingRouterV2Update (u : RouterUpdateInput) (region id : String)
    (clientErr : Option String) (updateResult : Except ApiError Router)
    (readGetResult : Except ApiError Router) : RouterUpdateOutcome :=
  match clientErr with
  | some e => ⟨false, none, some ("error creating OpenTelekomCloud networking client: " ++ e)⟩
  | none =>
    match buildRouterUpdateOpts u with
    | .error e => ⟨false, none, some e⟩
    | .ok opts =>
      match updateResult with
      | .error e =>
        ⟨true, some opts, some ("error updating OpenTelekomCloud Neutron Router: " ++ e.message)⟩
      | .ok _ =>
        let rd := resourceNetworkingRouterV2Read region id none readGetResult
        ⟨true, some opts, rd.error⟩

/-- The observable effect of a router or file share Delete: the resource ID
after the call (`""` when `d.SetId("")` cleared it) and the diagnostics
error. -/
structure DeleteOutcome where
  id : String
  error : Option String
deriving DecidableEq, Repr

/-- `resourceNetworkingRouterV2Delete`: run the DELETED wait
(`routerDeleteStateConf`, refresh `waitForRouterDelete`); on wait failure
report the error with the ID unchanged; on success `d.SetId("")`. -/
def resourceNetworkingRouterV2Delete (id : String) (clientErr : Option String)
    (waitOutcome : Except String (Option Router)) : DeleteOutcome :=
  match clientErr with
  | some e => ⟨id, some ("error creating OpenTelekomCloud networking client: " ++ e)⟩
  | none =>
    match waitOutcome with
    | .error e => ⟨id, some ("error deleting OpenTelekomCloud Neutron Router: " ++ e)⟩
    | .ok _ => ⟨"", none⟩

/-! ## SFS file share v2 (resource_opentelekomcloud_sfs_file_system_v2.go) -/

/-- Whether `sub` occurs as a contiguous run inside `hay`
(`strings.Contains` on the character lists). -/
def charsContain (sub : List Char) : List Char → Bool
  | [] => sub.isEmpty
  | c :: rest => sub.isPrefixOf (c :: rest) || charsContain sub rest

/-- `strings.Contains(s, sub)`. -/
def goStringsContains (s sub : String) : Bool :=
  charsContain sub.toList s.toList

/-- `shares.Share` of the vendor SDK, as returned by `Get` and `Create`
(metadata as an association list of the Go `map[string]string`). -/
structure Share where
  ID : String
  Name : String
  ShareProto : String
  Status : String
  Size : Int
  Description : String
  ShareType : String
  VolumeType : String
  IsPublic : Bool
  AvailabilityZone : String
  ExportLocation : String
  Host : String
  Metadata : List (String × String)
deriving DecidableEq, Repr

/-- `shares.AccessRight` of the vendor SDK, one entry of
`ListAccessRights(...).ExtractAccessRights()`. -/
structure AccessRule where
  ID : String
  State : String
  AccessTo : String
  AccessType : String
  AccessLevel : String
deriving DecidableEq, Repr

/-- The configuration (`d.Get` view) of a
`opentelekomcloud_sfs_file_system_v2` resource. -/
structure SFSConfig where
  region : String
  shareProto : String
  size : Int
  name : String
  description : String
  isPublic : Bool
  metadata : List (String × String)
  availabilityZone : String
  accessLevel : String
  accessType : String
  accessTo : String
deriving DecidableEq, Repr

/-- `shares.CreateOpts` of the vendor SDK. -/
structure ShareCreateOpts where
  ShareProto : String
  Size : Int
  Name : String
  Description : String
  IsPublic : Bool
  Metadata : List (String × String)
  AvailabilityZone : String
deriving DecidableEq, Repr

/-- The payload of `resourceSFSFileSystemV2Create` (lines 135–143);
`resourceSFSMetadataV2` copies the configured metadata map unchanged. -/
def buildShareCreateOpts (c : SFSConfig) : ShareCreateOpts :=
  { ShareProto := c.shareProto
    Size := c.size
    Name := c.name
    Description := c.description
    IsPublic := c.isPublic
    Metadata := c.metadata
    AvailabilityZone := c.availabilityZone }

/-- `shares.GrantAccessOpts` of the vendor SDK. -/
structure GrantAccessOpts where
  AccessLevel : String
  AccessType : String
  AccessTo : String
deriving DecidableEq, Repr

/-- The grant payload of the share Create (lines 163–167). -/
def buildGrantAccessOpts (c : SFSConfig) : GrantAccessOpts :=
  { AccessLevel := c.accessLevel
    AccessType := c.accessType
    AccessTo := c.accessTo }

/-- One key of the share's response metadata the Read function skips
(lines 212–218): keys starting with `#sfs` and keys containing
`enterprise_project_id` or `share_used`. -/
def isSystemMetaKey (key : String) : Bool :=
  key.startsWith "#sfs" ||
    goStringsContains key "enterprise_project_id" ||
    goStringsContains key "share_used"

/-- The metadata map the share Read writes to state: the response metadata
with the system keys removed. -/
def filterShareMetadata (metadata : List (String × String)) : List (String × String) :=
  metadata.filter fun kv => !isSystemMetaKey kv.1

/-- The attributes the share Read writes from the `Get` response (the first
`multierror.Append` block and the metadata map, lines 195–223). -/
structure SFSReadState where
  name : String
  shareProto : String
  status : String
  size : Int
  description : String
  shareType : String
  volumeType : String
  isPublic : Bool
  availabilityZone : String
  region : String
  exportLocation : String
  host : String
  metadata : List (String × String)
deriving DecidableEq, Repr

/-- The access-rule attributes the share Read writes from `rules[0]` when
`ListAccessRights` returned a nonempty list (lines 238–245). -/
structure SFSAccessState where
  shareAccessId : String
  accessRuleStatus : String
  accessTo : String
  accessType : String
  accessLevel : String
deriving DecidableEq, Repr

/-- The observable effect of a share Read. -/
structure SFSReadOutcome where
  id : String
  error : Option String
  state : Option SFSReadState
  access : Option SFSAccessState
deriving DecidableEq, Repr

/-- `sfsReadShareState`: the `d.Set` block the share Read performs on a
successful `Get`, with the system metadata keys removed from the map
(`d.Set` on valid schema keys succeeds, so the `multierror` stays nil). -/
def sfsReadShareState (region : String) (s : Share) : SFSReadState :=
  { name := s.Name
    shareProto := s.ShareProto
    status := s.Status
    size := s.Size
    description := s.Description
    shareType := s.ShareType
    volumeType := s.VolumeType
    isPublic := s.IsPublic
    availabilityZone := s.AvailabilityZone
    region := region
    exportLocation := s.ExportLocation
    host := s.Host
    metadata := filterShareMetadata s.Metadata }

/-- `resourceSFSFileSystemV2Read`: on `ErrDefault404` from `shares.Get`
clear the ID and succeed; on another `Get` error report it; otherwise write
the share attributes and the filtered metadata, then list the access
rights: a 404 there also clears the ID and succeeds, another error is
reported, an empty list leaves the access attributes unset, and otherwise
they are written from `rules[0]`. -/
def resourceSFSFileSystemV2Read (region id : String) (clientErr : Option String)
    (getResult : Except ApiError Share)
    (rulesResult : Except ApiError (List AccessRule)) : SFSReadOutcome :=
  match clientErr with
  | some e => ⟨id, some ("error creating OpenTelekomCloud File Share: " ++ e), none, none⟩
  | none =>
    match getResult with
    | .error .default404 => ⟨"", none, none, none⟩
    | .error e =>
      ⟨id, some ("error retrieving OpenTelekomCloud Shares: " ++ e.message), none, none⟩
    | .ok s =>
      let st := sfsReadShareState region s
      match rulesResult with
      | .error .default404 => ⟨"", none, some st, none⟩
      | .error e =>
        ⟨id, some ("error retrieving OpenTelekomCloud Shares: " ++ e.message), some st, none⟩
      | .ok [] => ⟨id, none, some st, none⟩
      | .ok (rule :: _) =>
        ⟨id, none, some st,
          some ⟨rule.ID, rule.State, rule.AccessTo, rule.AccessType, rule.AccessLevel⟩⟩

/-- The `(share pointer, status, error)` triple produced by one invocation
of the share `resource.StateRefreshFunc`. -/
structure ShareRefreshTriple where
  result : Option Share
  status : String
  err : Option ApiError
deriving DecidableEq, Repr

/-- `waitForSFSFileStatus`: a 404 from `shares.Get` means the share is
`deleted` (the nil share pointer is returned without being dereferenced);
another `Get` error is reported with an empty status; on success the triple
carries the share and its status. -/
def waitForSFSFileStatus (getResult : Except ApiError Share) : ShareRefreshTriple :=
  match getResult with
  | .error .default404 => ⟨none, "deleted", none⟩
  | .error e => ⟨none, "", some e⟩
  | .ok s => ⟨some s, s.Status, none⟩

/-- The `StateChangeConf` of the share Create wait (lines 150–157), whose
`Refresh` is `waitForSFSFileStatus`. -/
def sfsCreateStateConf : StateChangeConf :=
  { pending := ["creating"], target := ["available"] }

/-- The `StateChangeConf` of the share Delete wait (lines 320–327), whose
`Refresh` is `waitForSFSFileStatus`. -/
def sfsDeleteStateConf : StateChangeConf :=
  { pending := ["available", "deleting"], target := ["deleted"] }

/-- The environment a share Create runs against: the client construction,
the result of `shares.Create(...).Extract()`, the result of
`stateConf.WaitForState()` for `sfsCreateStateConf`, the result of
`shares.GrantAccess(...).ExtractAccess()`, and the results consumed by the
trailing Read. -/
structure SFSCreateEnv where
  clientErr : Option String
  createResult : Except ApiError Share
  waitOutcome : Except String (Option Share)
  grantResult : Except ApiError Unit
  readGetResult : Except ApiError Share
  readRulesResult : Except ApiError (List AccessRule)
deriving Repr

/-- The observable effect of a share Create: whether `shares.Create` and
`shares.GrantAccess` were called, the grant payload passed to
`GrantAccess` (none when the call was never made), the ID passed to
`d.SetId` (none when never called), and the diagnostics error. -/
structure SFSCreateOutcome where
  createCalled : Bool
  grantCalled : Bool
  grantPayload : Option GrantAccessOpts
  setIdCalledWith : Option String
  error : Option String
deriving Repr

/-- `resourceSFSFileSystemV2Create`: call `shares.Create`; wait for the
share to reach `available` (`sfsCreateStateConf`), reporting a wait failure
before `GrantAccess` is ever called; grant the configured access rule,
reporting a grant failure; only then `d.SetId(share.ID)` and run the
trailing Read. -/
def resourceSFSFileSystemV2Create (c : SFSConfig) (env : SFSCreateEnv) : SFSCreateOutcome :=
  match env.clientErr with
  | some e =>
    ⟨false, false, none, none,
      some ("error creating OpenTelekomCloud File Share Client: " ++ e)⟩
  | none =>
    match env.createResult with
    | .error e =>
      ⟨true, false, none, none,
        some ("error creating OpenTelekomCloud File Share: " ++ e.message)⟩
    | .ok share =>
      match env.waitOutcome with
      | .error e =>
        ⟨true, false, none, none,
          some ("error applying access rules to share file: " ++ e)⟩
      | .ok _ =>
        let grantAccessOpts := buildGrantAccessOpts c
        match env.grantResult with
        | .error e =>
          ⟨true, true, some grantAccessOpts, none,
            some ("error applying access rules to share file: " ++ e.message)⟩
        | .ok _ =>
          let rd := resourceSFSFileSystemV2Read c.region share.ID none
            env.readGetResult env.readRulesResult
          ⟨true, true, some grantAccessOpts, some share.ID, rd.error⟩

/-- `resourceSFSFileSystemV2Delete`: call `shares.Delete`, reporting its
error with the ID unchanged; then wait for the status `deleted`
(`sfsDeleteStateConf`), reporting a wait failure with the ID unchanged; on
success `d.SetId("")`. -/
def resourceSFSFileSystemV2Delete (id : String) (clientErr : Option String)
    (deleteErr : Option ApiError) (waitOutcome : Except String (Option Share)) :
    DeleteOutcome :=
  match clientErr with
  | some e => ⟨id, some ("error creating OpenTelekomCloud Shared File: " ++ e)⟩
  | none =>
    match deleteErr with
    | some e => ⟨id, some ("error deleting OpenTelekomCloud Shared File: " ++ e.message)⟩
    | none =>
      match waitOutcome with
      | .error e => ⟨id, some ("error deleting OpenTelekomCloud Share File: " ++ e)⟩
      | .ok _ => ⟨"", none⟩

/-! ## Concrete fixtures -/

/-- A sample router. -/
def routerFix : Router :=
  { ID := "router-1", Name := "demo", AdminStateUp := true, Distributed := false,
    TenantID := "tenant-1", GatewayInfo := ⟨"", none⟩, Status := "ACTIVE" }

/-- A sample router configuration without gateway or SNAT settings. -/
def routerCfgFix : RouterConfig :=
  { region := "eu-de", name := "demo", adminStateUp := none, distributed := none,
    externalGateway := "", enableSnat := none, tenantID := "tenant-1", valueSpecs := [] }

/-- A sample router configuration that sets `enable_snat` while leaving
`external_gateway` empty. -/
def routerCfgSnatNoGw : RouterConfig :=
  { routerCfgFix with enableSnat := some true }

/-- A router Create environment whose ACTIVE wait times out while everything
else succeeds. -/
def routerEnvWaitTimeout : RouterCreateEnv :=
  { clientErr := none, createResult := .ok routerFix,
    waitOutcome := .error "timeout while waiting for state to become 'ACTIVE'",
    readGetResult := .ok routerFix }

/-- A router Create environment where every call succeeds. -/
def routerEnvAllOk : RouterCreateEnv :=
  { clientErr := none, createResult := .ok routerFix,
    waitOutcome := .ok (some routerFix), readGetResult := .ok routerFix }

/-- A router Update input that changes only `enable_snat`, with an empty
configured `external_gateway`. -/
def routerUpdSnatNoGw : RouterUpdateInput :=
  { hasChangeName := false, name := "demo", hasChangeAdminStateUp := false,
    adminStateUp := false, externalGateway := "", hasChangeExternalGateway := false,
    hasChangeEnableSnat := true, enableSnat := true }

/-- A sample WAF condition block. -/
def wafCondFix : ConditionConfig := ⟨"url", "", 1, ["/admin", "/login"]⟩

/-- A sample rule configuration with both `start` and `end` set. -/
def wafCfgTimes : WafRuleConfig :=
  { region := "eu-de", policyId := "pol-1", name := "rule-1", time := true,
    start := "7", endStr := "100", conditions := [wafCondFix],
    actionCategory := "block", priority := 10 }

/-- The same configuration with an unparseable `start`. -/
def wafCfgBadStart : WafRuleConfig := { wafCfgTimes with start := "x" }

/-- The same configuration with `start` unset and an unparseable `end`. -/
def wafCfgBadEnd : WafRuleConfig := { wafCfgTimes with start := "", endStr := "x" }

/-- The same configuration with `start` and `end` unset. -/
def wafCfgNoTimes : WafRuleConfig := { wafCfgTimes with start := "", endStr := "" }

/-- The payload Create builds for `wafCfgNoTimes`. -/
def wafOptsNoTimes : PreciseCreateOpts :=
  { Name := "rule-1", Time := true, Conditions := getConditions [wafCondFix],
    Action := ⟨"block"⟩, Priority := 10, Start := 0, End := 0 }

/-- A sample rule as returned by the API. -/
def wafRuleFix : PreciseRule :=
  { Id := "rule-id-1", PolicyID := "pol-1", Name := "rule-1", Time := true,
    Start := 7, End := 100, Conditions := getConditions [wafCondFix],
    Action := ⟨"block"⟩, Priority := 10 }

/-- A WAF Create environment where every call succeeds. -/
def wafEnvAllOk : WafCreateEnv :=
  { clientErr := none, createResult := .ok wafRuleFix, readGetResult := .ok wafRuleFix }

/-! ## Claims -/

/-- C1: the router Create does configure the ACTIVE wait with pending
statuses BUILD, PENDING_CREATE, PENDING_UPDATE and target ACTIVE, but a
failure of this wait does NOT cause Create to report an error: at a
concrete input whose wait times out, Create still calls `d.SetId` with the
new router's ID, runs the trailing Read, and returns no error — the wait
result is assigned to `err` and never inspected. -/
theorem routerCreate_discards_wait_failure :
    routerActiveStateConf =
      ⟨["BUILD", "PENDING_CREATE", "PENDING_UPDATE"], ["ACTIVE"]⟩ ∧
    (resourceNetworkingRouterV2Create routerCfgFix routerEnvWaitTimeout).setIdCalledWith =
      some "router-1" ∧
    (resourceNetworkingRouterV2Create routerCfgFix routerEnvWaitTimeout).error = none := by
  exact ⟨rfl, rfl, rfl⟩

/-- C6: the router-active refresh function does not return a triple when
the underlying `Get` fails: it dereferences the nil router pointer to build
the status of `return nil, r.Status, err` and crashes, at the concrete
input of a `Get` failing with a non-404 error. -/
theorem waitForRouterActive_crashes_on_get_error :
    waitForRouterActive ⟨none, some (.other "connection refused")⟩ = .crash := by
  exact rfl

/-- C2: the `start` attribute is parsed into the payload's Start field (and
an unparseable `start` is a conversion error), but the `end` attribute is
never parsed into End: the guard checks `d.GetOk("cache_control")`, a key
this resource's schema does not declare, so with `end = "100"` the payload
keeps End = 0, and an unparseable `end` raises no error. -/
theorem wafCreate_never_parses_end :
    wafGetOkString wafCfgTimes "end" = true ∧
    ((resourceWafPreciseProtectionRuleV1Create wafCfgTimes wafEnvAllOk).payload).map
      (fun o => (o.Start, o.End)) = some ((7 : Int), (0 : Int)) ∧
    buildPreciseCreateOpts wafCfgBadStart =
      .error "error converting start: strconv.ParseInt: parsing \"x\": invalid syntax" ∧
    exceptOk (buildPreciseCreateOpts wafCfgBadEnd) = true := by
  exact ⟨rfl, rfl, rfl, rfl⟩

/-- C3: the share Create waits for the status `available`; a wait failure
is reported before `GrantAccess` is ever called and leaves the ID unset; a
grant failure is reported and leaves the ID unset; and when both steps
succeed the rule granted is built from the configured access_level,
access_type and access_to and the ID is set to the new share's ID. -/
theorem sfsCreate_wait_grant_then_set_id (c : SFSConfig) (share : Share)
    (w : Option Share) (ew : String) (ge : ApiError) (rg : Except ApiError Share)
    (rr : Except ApiError (List AccessRule)) :
    sfsCreateStateConf = ⟨["creating"], ["available"]⟩ ∧
    resourceSFSFileSystemV2Create c ⟨none, .ok share, .error ew, .ok (), rg, rr⟩ =
      ⟨true, false, none, none,
        some ("error applying access rules to share file: " ++ ew)⟩ ∧
    resourceSFSFileSystemV2Create c ⟨none, .ok share, .ok w, .error ge, rg, rr⟩ =
      ⟨true, true, some ⟨c.accessLevel, c.accessType, c.accessTo⟩, none,
        some ("error applying access rules to share file: " ++ ge.message)⟩ ∧
    (resourceSFSFileSystemV2Create c ⟨none, .ok share, .ok w, .ok (), rg, rr⟩).grantCalled =
      true ∧
    (resourceSFSFileSystemV2Create c ⟨none, .ok share, .ok w, .ok (), rg, rr⟩).grantPayload =
      some { AccessLevel := c.accessLevel, AccessType := c.accessType,
             AccessTo := c.accessTo } ∧
    (resourceSFSFileSystemV2Create c ⟨none, .ok share, .ok w, .ok (), rg, rr⟩).setIdCalledWith =
      some share.ID := by
  exact ⟨rfl, rfl, rfl, rfl, rfl, rfl⟩

/-- C4: the payload's conditions are a one-to-one, order-preserving map of
the configured condition blocks — same length, and the i-th payload
condition copies the i-th block's category, index, logic and contents — and
every payload Create successfully builds carries exactly
`getConditions` of the configured blocks. -/
theorem getConditions_one_to_one (blocks : List ConditionConfig) (c : WafRuleConfig)
    (p : PreciseCreateOpts) (hp : buildPreciseCreateOpts c = .ok p) :
    (getConditions blocks).length = blocks.length ∧
    (∀ i : Nat, (getConditions blocks)[i]? = (blocks[i]?).map fun b =>
      { Category := b.category, Index := b.index, Logic := b.logic,
        Contents := b.contents }) ∧
    p.Conditions = getConditions c.conditions := by
  refine ⟨List.length_map _ _, fun i => ?_, ?_⟩
  · simp [getConditions]
  · unfold buildPreciseCreateOpts at hp
    dsimp only at hp
    split at hp
    · exact absurd hp (by simp)
    · rename_i opts heq
      split at hp
      · split at hp
        · exact absurd hp (by simp)
        · cases hp
          split at heq
          · split at heq
            · exact absurd heq (by simp)
            · cases heq; rfl
          · cases heq; rfl
      · cases hp
        split at heq
        · split at heq
          · exact absurd heq (by simp)
          · cases heq; rfl
        · cases heq; rfl

/-- C4 witness: the theorem applied to a concrete configuration whose
payload construction succeeds. -/
theorem getConditions_one_to_one_witness :
    buildPreciseCreateOpts wafCfgNoTimes = .ok wafOptsNoTimes ∧
    (getConditions [wafCondFix]).length = [wafCondFix].length ∧
    wafOptsNoTimes.Conditions = getConditions wafCfgNoTimes.conditions :=
  ⟨by rfl,
   (getConditions_one_to_one [wafCondFix] wafCfgNoTimes wafOptsNoTimes (by rfl)).1,
   (getConditions_one_to_one [wafCondFix] wafCfgNoTimes wafOptsNoTimes (by rfl)).2.2⟩

/-- C5: a rule Read that fetched the rule writes policy_id, name, time,
start, end, conditions, action_category and priority from the response,
with start and end rendered through `strconv.FormatInt(_, 10)`. -/
theorem wafRead_reflects_response (id0 : String) (n : PreciseRule) :
    resourceWafPreciseProtectionRuleV1Read id0 none (.ok n) =
      ⟨n.Id, none, some
        { policyId := n.PolicyID, name := n.Name, time := n.Time,
          start := formatInt10 n.Start, endStr := formatInt10 n.End,
          conditions := n.Conditions, actionCategory := n.Action.Category,
          priority := n.Priority }⟩ := by
  have h : n.Conditions.map (fun cond : Condition =>
      { Category := cond.Category, Index := cond.Index, Logic := cond.Logic,
        Contents := cond.Contents }) = n.Conditions := List.map_id' n.Conditions
  simp only [resourceWafPreciseProtectionRuleV1Read, h]

/-- C7: for both the router and the share Delete the ID is cleared exactly
when the delete wait succeeds, a wait failure (or, for the share, a failed
initial Delete call) reports an error with the ID unchanged, and in the
refresh functions a 404 from `Get` or `Delete` counts as DELETED /
`deleted`. -/
theorem delete_clears_id_iff_wait_succeeds (rid sid : String)
    (hr : rid ≠ "") (hs : sid ≠ "")
    (w : Except String (Option Router)) (sw : Except String (Option Share))
    (e : ApiError) (r : Option Router) :
    ((resourceNetworkingRouterV2Delete rid none w).id = "" ↔ exceptOk w = true) ∧
    ((resourceNetworkingRouterV2Delete rid none w).error = none ↔ exceptOk w = true) ∧
    ((resourceSFSFileSystemV2Delete sid none none sw).id = "" ↔ exceptOk sw = true) ∧
    ((resourceSFSFileSystemV2Delete sid none none sw).error = none ↔ exceptOk sw = true) ∧
    resourceSFSFileSystemV2Delete sid none (some e) sw =
      ⟨sid, some ("error deleting OpenTelekomCloud Shared File: " ++ e.message)⟩ ∧
    waitForRouterDelete ⟨r, some .default404⟩ none = .triple r "DELETED" none ∧
    waitForRouterDelete ⟨r, none⟩ (some .default404) = .triple r "DELETED" none ∧
    waitForSFSFileStatus (.error .default404) = ⟨none, "deleted", none⟩ ∧
    routerDeleteStateConf.target = ["DELETED"] ∧
    sfsDeleteStateConf.target = ["deleted"] := by
  cases w <;> cases sw <;>
    simp [resourceNetworkingRouterV2Delete, resourceSFSFileSystemV2Delete,
      waitForRouterDelete, waitForSFSFileStatus, exceptOk, hr, hs,
      routerDeleteStateConf, sfsDeleteStateConf]

/-- C7 witness: the theorem applied at concrete IDs, successful waits, and
a concrete failing share Delete call. -/
theorem delete_clears_id_iff_wait_succeeds_witness :
    ("router-1" : String) ≠ "" ∧ ("share-1" : String) ≠ "" ∧
    (((resourceNetworkingRouterV2Delete "router-1" none (.ok none)).id = "" ↔
        exceptOk (Except.ok (ε := String) (none : Option Router)) = true) ∧
      ((resourceNetworkingRouterV2Delete "router-1" none (.ok none)).error = none ↔
        exceptOk (Except.ok (ε := String) (none : Option Router)) = true) ∧
      ((resourceSFSFileSystemV2Delete "share-1" none none (.ok none)).id = "" ↔
        exceptOk (Except.ok (ε := String) (none : Option Share)) = true) ∧
      ((resourceSFSFileSystemV2Delete "share-1" none none (.ok none)).error = none ↔
        exceptOk (Except.ok (ε := String) (none : Option Share)) = true) ∧
      resourceSFSFileSystemV2Delete "share-1" none (some (.other "boom")) (.ok none) =
        ⟨"share-1", some ("error deleting OpenTelekomCloud Shared File: " ++
          (ApiError.other "boom").message)⟩ ∧
      waitForRouterDelete ⟨none, some .default404⟩ none = .triple none "DELETED" none ∧
      waitForRouterDelete ⟨none, none⟩ (some .default404) = .triple none "DELETED" none ∧
      waitForSFSFileStatus (.error .default404) = ⟨none, "deleted", none⟩ ∧
      routerDeleteStateConf.target = ["DELETED"] ∧
      sfsDeleteStateConf.target = ["deleted"]) :=
  ⟨by decide, by decide,
   delete_clears_id_iff_wait_succeeds "router-1" "share-1" (by decide) (by decide)
     (.ok none) (.ok none) (.other "boom") none⟩

/-- C8: with `enable_snat` set while `external_gateway` is empty, Create
reports `setting enable_snat requires external_gateway to be set` without
issuing the create API call, and Update with a changed `enable_snat` and an
empty `external_gateway` reports the same error without issuing the update
API call. -/
theorem snat_requires_external_gateway (c : RouterConfig) (env : RouterCreateEnv)
    (b : Bool) (u : RouterUpdateInput) (region id : String)
    (upd rg : Except ApiError Router)
    (hc1 : c.enableSnat = some b) (hc2 : c.externalGateway = "")
    (hc3 : env.clientErr = none)
    (hu1 : u.hasChangeEnableSnat = true) (hu2 : u.externalGateway = "") :
    resourceNetworkingRouterV2Create c env =
      ⟨false, none, none, some "setting enable_snat requires external_gateway to be set"⟩ ∧
    resourceNetworkingRouterV2Update u region id none upd rg =
      ⟨false, none, some "setting enable_snat requires external_gateway to be set"⟩ := by
  constructor
  · simp [resourceNetworkingRouterV2Create, buildRouterCreateOpts, hc1, hc2, hc3]
  · simp [resourceNetworkingRouterV2Update, buildRouterUpdateOpts, hu1, hu2]

/-- C8 witness: the theorem applied to a concrete configuration that sets
`enable_snat` with an empty gateway, and a concrete update changing only
`enable_snat`. -/
theorem snat_requires_external_gateway_witness :
    routerCfgSnatNoGw.enableSnat = some true ∧
    routerCfgSnatNoGw.externalGateway = "" ∧
    routerEnvAllOk.clientErr = none ∧
    routerUpdSnatNoGw.hasChangeEnableSnat = true ∧
    routerUpdSnatNoGw.externalGateway = "" ∧
    (resourceNetworkingRouterV2Create routerCfgSnatNoGw routerEnvAllOk =
      ⟨false, none, none, some "setting enable_snat requires external_gateway to be set"⟩ ∧
    resourceNetworkingRouterV2Update routerUpdSnatNoGw "eu-de" "router-1" none
        (.ok routerFix) (.ok routerFix) =
      ⟨false, none, some "setting enable_snat requires external_gateway to be set"⟩) :=
  ⟨rfl, rfl, rfl, rfl, rfl,
   snat_requires_external_gateway routerCfgSnatNoGw routerEnvAllOk true
     routerUpdSnatNoGw "eu-de" "router-1" (.ok routerFix) (.ok routerFix)
     rfl rfl rfl rfl rfl⟩

/-- C9: each of the three Reads clears the ID and returns no error on a 404
from `Get`, and reports any other `Get` error with the ID unchanged. -/
theorem reads_clear_id_only_on_404 (reg rid sid wid m : String)
    (rules : Except ApiError (List AccessRule)) :
    resourceNetworkingRouterV2Read reg rid none (.error .default404) = ⟨"", none, none⟩ ∧
    resourceSFSFileSystemV2Read reg sid none (.error .default404) rules =
      ⟨"", none, none, none⟩ ∧
    resourceWafPreciseProtectionRuleV1Read wid none (.error .default404) =
      ⟨"", none, none⟩ ∧
    (resourceNetworkingRouterV2Read reg rid none (.error (.other m))).id = rid ∧
    ((resourceNetworkingRouterV2Read reg rid none (.error (.other m))).error).isSome = true ∧
    (resourceSFSFileSystemV2Read reg sid none (.error (.other m)) rules).id = sid ∧
    ((resourceSFSFileSystemV2Read reg sid none (.error (.other m)) rules).error).isSome
      = true ∧
    (resourceWafPreciseProtectionRuleV1Read wid none (.error (.other m))).id = wid ∧
    ((resourceWafPreciseProtectionRuleV1Read wid none (.error (.other m))).error).isSome
      = true := by
  exact ⟨rfl, rfl, rfl, rfl, rfl, rfl, rfl, rfl, rfl⟩

/-- C10: the metadata map a share Read writes is the response metadata
restricted to the keys that do not start with `#sfs` and contain neither
`enterprise_project_id` nor `share_used`, each kept with its unchanged
value. -/
theorem sfsRead_filters_system_metadata (reg sid k v : String) (s : Share)
    (rules : Except ApiError (List AccessRule)) :
    ((resourceSFSFileSystemV2Read reg sid none (.ok s) rules).state).map
      (fun st => st.metadata) = some (filterShareMetadata s.Metadata) ∧
    ((k, v) ∈ filterShareMetadata s.Metadata ↔
      (k, v) ∈ s.Metadata ∧ k.startsWith "#sfs" = false ∧
        goStringsContains k "enterprise_project_id" = false ∧
        goStringsContains k "share_used" = false) := by
  constructor
  · rcases rules with e | l
    · cases e <;> rfl
    · cases l <;> rfl
  · simp [filterShareMetadata, isSystemMetaKey, List.mem_filter, and_assoc]
